import Mathlib

/-!
# Verification of the Victron D-Bus MQTT mapper bridge engine

Shallow embedding of src/dbus_mapper.py (class P1Mapper): the field-mapping
transform (process_message, lines 313-402), the connection callbacks
(on_connect_victron / on_disconnect_victron / on_connect_source /
on_disconnect_source), the liveness monitor tick (start_timeout_monitor's
inner loop body, lines 203-227), suspension and resumption
(suspend_victron_publishing / resume_victron_publishing /
send_disconnected_status), the inbound message handler (on_message,
lines 277-311) and shutdown (lines 446-467).

Modelling conventions:
* JSON scalar values (the payloads are flat meter readings) are the `Value`
  type; Python multiplication `value * multiplier` is `pyMul`, which follows
  Python semantics including sequence repetition `str * int` and the
  TypeError raised by `str * float`.
* Exceptions are `Except String`; an exception escaping `process_message`
  is caught by `on_message`'s try/except (logged, message dropped).
* MQTT publishes are recorded as `Output` values in a trace; the publish
  result code only influences logging in the source, so `process_message`
  takes the publish outcome `pubOk` as a parameter that provably does not
  affect the resulting state.
* Wall-clock time (`time.time()`) is rational; the monitor's elapsed test
  `now - t > timeout` is taken at the instant of the tick.
* `loop_stop()` / `disconnect()` during shutdown do not run the
  on_disconnect callbacks (the network loops are already stopped), so
  `shutdown` leaves the connection flags unchanged.
-/

deriving instance DecidableEq for Except

namespace DbusMapper

/-- A JSON scalar value as decoded by `json.loads` for the flat meter
payloads and mapping-table entries of this program. -/
inductive Value where
  | vInt : Int → Value
  | vFloat : ℚ → Value
  | vStr : String → Value
  | vBool : Bool → Value
  | vNull : Value
deriving DecidableEq, Repr

/-- Python `s * n` for a string and an integer: repetition, empty for
non-positive counts. -/
def strRepeat (s : String) (n : Int) : String :=
  String.join (List.replicate n.toNat s)

/-- Python `True`/`False` coerced to an integer operand. -/
def boolToInt (b : Bool) : Int := if b then 1 else 0

/-- Python multiplication `a * b` on JSON scalar values, as executed by
`value = value * field["multiplier"]` (src/dbus_mapper.py line 344):
numeric x numeric multiplies (float-contaminating), `str`/`int` (either
order) is sequence repetition, bool acts as int, and every other pairing
raises TypeError. -/
def pyMul : Value → Value → Except String Value
  | .vInt a, .vInt b => .ok (.vInt (a * b))
  | .vInt a, .vFloat q => .ok (.vFloat (a * q))
  | .vInt n, .vStr s => .ok (.vStr (strRepeat s n))
  | .vInt a, .vBool b => .ok (.vInt (a * boolToInt b))
  | .vFloat q, .vInt b => .ok (.vFloat (q * b))
  | .vFloat q, .vFloat r => .ok (.vFloat (q * r))
  | .vFloat _, .vStr _ => .error "TypeError: cannot multiply sequence by non-int of type float"
  | .vFloat q, .vBool b => .ok (.vFloat (q * boolToInt b))
  | .vStr s, .vInt n => .ok (.vStr (strRepeat s n))
  | .vStr _, .vFloat _ => .error "TypeError: cannot multiply sequence by non-int of type float"
  | .vStr s, .vBool b => .ok (.vStr (if b then s else ""))
  | .vStr _, .vStr _ => .error "TypeError: cannot multiply sequence by str"
  | .vBool a, .vInt b => .ok (.vInt (boolToInt a * b))
  | .vBool a, .vFloat q => .ok (.vFloat (boolToInt a * q))
  | .vBool b, .vStr s => .ok (.vStr (if b then s else ""))
  | .vBool a, .vBool b => .ok (.vInt (boolToInt a * boolToInt b))
  | .vNull, _ => .error "TypeError: unsupported operand type NoneType"
  | _, .vNull => .error "TypeError: unsupported operand type NoneType"

/-- One entry of the `dbus_fields` mapping table. Every key may be absent
in the JSON dict, hence all fields are `Option` (the source reads
`field["valueType"]` unconditionally, so a missing `valueType` raises a
KeyError once a record for that rule is actually built). -/
structure MappingRule where
  name : Option String
  path : Option String
  valueType : Option Value
  multiplier : Option Value
  unit : Option Value
  digits : Option Value
deriving DecidableEq, Repr

/-- One emitted destination record, as assembled into `dbus_data`
(src/dbus_mapper.py lines 347-358). -/
structure DestRecord where
  path : String
  value : Value
  valueType : Value
  writeable : Bool
  unit : Option Value
  digits : Option Value
deriving DecidableEq, Repr

/-- A decoded meter payload: a JSON object as an association list
(dict keys are unique, first match wins). -/
def MeterData := List (String × Value)

/-- Python dict membership / lookup `meter_data[field_name]`. -/
def dictGet : List (String × Value) → String → Option Value
  | [], _ => none
  | (k, v) :: rest, key => if k = key then some v else dictGet rest key

/-- The mapping loop of `process_message` (src/dbus_mapper.py lines
329-360): iterate rules in table order; skip a rule lacking `path` or
`name` or whose `name` is not a key of the meter record; otherwise apply
the multiplier when present (a Python TypeError aborts the whole message)
and emit a record with `writeable=False` and any `unit`/`digits` copied. -/
def mapFields (mapping : List MappingRule) (meter : List (String × Value)) :
    Except String (List DestRecord) :=
  match mapping with
  | [] => .ok []
  | field :: rest =>
    match field.path, field.name with
    | some p, some n =>
      match dictGet meter n with
      | none => mapFields rest meter
      | some v =>
        match (match field.multiplier with
               | some m => pyMul v m
               | none => .ok v) with
        | .error e => .error e
        | .ok value =>
          match field.valueType with
          | none => .error "KeyError: valueType"
          | some vt =>
            match mapFields rest meter with
            | .error e => .error e
            | .ok restOut =>
              .ok ({ path := p, value := value, valueType := vt,
                     writeable := false, unit := field.unit,
                     digits := field.digits } :: restOut)
    | _, _ => mapFields rest meter

/-- The mutable fields of the single `P1Mapper` instance that the claims
concern (src/dbus_mapper.py lines 60-72). -/
structure MapperState where
  source_connected : Bool
  victron_mqtt_connected : Bool
  victron_publishing_active : Bool
  index : Nat
  last_message_time : Option ℚ
  shutdown_in_progress : Bool
deriving DecidableEq, Repr

/-- An observable MQTT publish attempt. -/
inductive Output where
  | victronMsg (dbusData : List DestRecord) (retain : Bool)
  | sourceOnline (publishedIndex : Option Nat)
  | sourceOffline
deriving DecidableEq, Repr

/-- The `/Connected` record appended by `process_message`
(src/dbus_mapper.py lines 363-368): value 1 when the source is connected
AND publishing is active, else 0. -/
def connectedRecord (s : MapperState) : DestRecord :=
  { path := "/Connected"
    value := .vInt (if s.source_connected && s.victron_publishing_active then 1 else 0)
    valueType := .vStr "integer"
    writeable := false
    unit := none
    digits := none }

/-- The `/UpdateIndex` record (src/dbus_mapper.py lines 371-376 and
257-262): value `index % 256`. -/
def updateIndexRecord (idx : Nat) : DestRecord :=
  { path := "/UpdateIndex"
    value := .vInt (idx % 256)
    valueType := .vStr "integer"
    writeable := false
    unit := none
    digits := none }

/-- `process_message` (src/dbus_mapper.py lines 313-402). A `none` payload
is a JSON decode failure, caught internally (log and return). A mapping
exception propagates (`Except.error`) to the caller. On success the
transformed message is published (result code `pubOk` only logged), the
periodic status echo fires when `index % 256 == 0 or index == 0`, and
`index` is incremented. -/
def process_message (mapping : List MappingRule) (s : MapperState)
    (payload : Option (List (String × Value))) (pubOk : Bool) :
    Except String (MapperState × List Output) :=
  match payload with
  | none => .ok (s, [])
  | some meter =>
    match mapFields mapping meter with
    | .error e => .error e
    | .ok mapped =>
      let dbusData := mapped ++ [connectedRecord s, updateIndexRecord s.index]
      let outs := Output.victronMsg dbusData false ::
        (if s.index % 256 == 0 || s.index == 0
         then [Output.sourceOnline (some s.index)] else [])
      .ok ({ s with index := s.index + 1 }, outs)

/-- `send_disconnected_status` (src/dbus_mapper.py lines 242-275): when the
Victron MQTT session is connected, publish (retained) a message whose
`dbus_data` is a `/Connected = 0` record followed by the current
`/UpdateIndex`; otherwise do nothing. The state is not modified. -/
def send_disconnected_status (s : MapperState) : List Output :=
  if s.victron_mqtt_connected then
    [Output.victronMsg
      [{ path := "/Connected", value := .vInt 0, valueType := .vStr "integer",
         writeable := false, unit := none, digits := none },
       updateIndexRecord s.index] true]
  else []

/-- `suspend_victron_publishing` (src/dbus_mapper.py lines 229-234): when
publishing is active, clear the flag and send the disconnected status;
otherwise a no-op. -/
def suspend_victron_publishing (s : MapperState) : MapperState × List Output :=
  if s.victron_publishing_active then
    let s1 := { s with victron_publishing_active := false }
    (s1, send_disconnected_status s1)
  else (s, [])

/-- `resume_victron_publishing` (src/dbus_mapper.py lines 236-240): set
publishing active only when it is currently inactive AND the Victron MQTT
session is connected. -/
def resume_victron_publishing (s : MapperState) : MapperState :=
  if !s.victron_publishing_active && s.victron_mqtt_connected then
    { s with victron_publishing_active := true }
  else s

/-- One iteration of the timeout-monitor loop body
(src/dbus_mapper.py lines 205-223) at wall-clock instant `now`: guarded by
the shutdown flag; if no message has ever been seen, do nothing; else
suspend publishing when the elapsed time exceeds the configured timeout
and publishing is currently active. -/
def monitor_tick (timeout : ℚ) (s : MapperState) (now : ℚ) :
    MapperState × List Output :=
  if s.shutdown_in_progress then (s, [])
  else
    match s.last_message_time with
    | none => (s, [])
    | some t =>
      if now - t > timeout then
        if s.victron_publishing_active then suspend_victron_publishing s
        else (s, [])
      else (s, [])

/-- `on_connect_victron` (src/dbus_mapper.py lines 165-177): result code 0
sets the MQTT-connected flag (publishing is NOT activated — the code waits
for the first message); any other code clears both flags. -/
def on_connect_victron (s : MapperState) (rc : Nat) : MapperState :=
  if rc = 0 then { s with victron_mqtt_connected := true }
  else { s with victron_mqtt_connected := false, victron_publishing_active := false }

/-- `on_disconnect_victron` (src/dbus_mapper.py lines 188-196): clears both
the MQTT-connected flag and the publishing-active flag. -/
def on_disconnect_victron (s : MapperState) (_rc : Nat) : MapperState :=
  { s with victron_mqtt_connected := false, victron_publishing_active := false }

/-- `on_connect_source` (src/dbus_mapper.py lines 145-163): result code 0
sets the source-connected flag, publishes the online status and resets the
liveness timestamp; failure clears the flag. -/
def on_connect_source (s : MapperState) (rc : Nat) (now : ℚ) :
    MapperState × List Output :=
  if rc = 0 then
    ({ s with source_connected := true, last_message_time := some now },
     [Output.sourceOnline none])
  else ({ s with source_connected := false }, [])

/-- `on_disconnect_source` (src/dbus_mapper.py lines 179-186): clears the
source-connected flag. -/
def on_disconnect_source (s : MapperState) (_rc : Nat) : MapperState :=
  { s with source_connected := false }

/-- `on_message` (src/dbus_mapper.py lines 277-311) for a message on the
telemetry topic (`topicMatch`), arriving at instant `now`, with the
non-blocking processing lock free (`lockAvailable`) or held. The liveness
timestamp is updated before the publishability checks; a suspended state
resumes only when the Victron MQTT session is connected, else the message
is dropped without a transform attempt; lock contention drops the message;
an exception escaping `process_message` is caught and logged. -/
def on_message (mapping : List MappingRule) (s : MapperState)
    (topicMatch : Bool) (now : ℚ) (lockAvailable : Bool)
    (payload : Option (List (String × Value))) (pubOk : Bool) :
    MapperState × List Output :=
  if !topicMatch then (s, [])
  else
    let s1 := { s with last_message_time := some now }
    if !s1.victron_publishing_active && !s1.victron_mqtt_connected then (s1, [])
    else
      let s2 := if !s1.victron_publishing_active
                then resume_victron_publishing s1 else s1
      if !s2.victron_mqtt_connected then (s2, [])
      else if !lockAvailable then (s2, [])
      else
        match process_message mapping s2 payload pubOk with
        | .error _ => (s2, [])
        | .ok r => r

/-- `shutdown` (src/dbus_mapper.py lines 446-467): set the shutdown flag,
publish the source offline status, send the disconnected status to the
Victron broker, then stop both loops and disconnect (the stopped loops
deliver no further callbacks, so the connection flags are untouched).
There is no re-entrancy guard. -/
def shutdown (s : MapperState) : MapperState × List Output :=
  let s1 := { s with shutdown_in_progress := true }
  (s1, Output.sourceOffline :: send_disconnected_status s1)

/-- The externally triggered operations on the shared `P1Mapper` state. -/
inductive Event where
  | connectVictron (rc : Nat)
  | disconnectVictron (rc : Nat)
  | connectSource (rc : Nat) (now : ℚ)
  | disconnectSource (rc : Nat)
  | message (topicMatch : Bool) (now : ℚ) (lockAvailable : Bool)
            (payload : Option (List (String × Value))) (pubOk : Bool)
  | tick (now : ℚ)
  | shutdownEvt

/-- Dispatch of one event to the corresponding handler of the source. -/
def step (mapping : List MappingRule) (timeout : ℚ) (e : Event)
    (s : MapperState) : MapperState × List Output :=
  match e with
  | .connectVictron rc => (on_connect_victron s rc, [])
  | .disconnectVictron rc => (on_disconnect_victron s rc, [])
  | .connectSource rc now => on_connect_source s rc now
  | .disconnectSource rc => (on_disconnect_source s rc, [])
  | .message tm now la p ok => on_message mapping s tm now la p ok
  | .tick now => monitor_tick timeout s now
  | .shutdownEvt => shutdown s

/-- The implicit invariant: publishing to Victron is active only while the
Victron MQTT session is connected. -/
def publishImpliesConnected (s : MapperState) : Prop :=
  s.victron_publishing_active = true → s.victron_mqtt_connected = true

instance (s : MapperState) : Decidable (publishImpliesConnected s) := by
  unfold publishImpliesConnected; infer_instance

/-- The state after one successful `process_message` call on a fixed meter
payload (used to iterate successive publishes). -/
def stepOnceOk (mapping : List MappingRule) (meter : List (String × Value))
    (pubOk : Bool) (s : MapperState) : MapperState :=
  match process_message mapping s (some meter) pubOk with
  | .ok (s1, _) => s1
  | .error _ => s

/-- The `dbus_data` array of the Victron publish produced by a
`process_message` result (empty when nothing was published). -/
def publishedData (r : Except String (MapperState × List Output)) :
    List DestRecord :=
  match r with
  | .ok (_, Output.victronMsg d _ :: _) => d
  | _ => []

/-! ## Concrete fixtures (used by witnesses and counterexamples) -/

/-- The spec's worked example rule: power_w scaled by 0.001 to /Ac/Power. -/
def exampleRule : MappingRule :=
  { name := some "power_w", path := some "/Ac/Power",
    valueType := some (.vStr "float"), multiplier := some (.vFloat (1/1000)),
    unit := none, digits := none }

def mapping0 : List MappingRule := [exampleRule]

def meter0 : List (String × Value) := [("power_w", .vInt 1500)]

def mapped0 : List DestRecord :=
  [{ path := "/Ac/Power", value := .vFloat (3/2), valueType := .vStr "float",
     writeable := false, unit := none, digits := none }]

/-- A fully-connected, actively-publishing state with index 0. -/
def s0 : MapperState :=
  { source_connected := true, victron_mqtt_connected := true,
    victron_publishing_active := true, index := 0,
    last_message_time := some 0, shutdown_in_progress := false }

/-- An adversarial mapping table whose single rule targets the path
"/Connected" itself. -/
def mappingC2 : List MappingRule :=
  [{ name := some "x", path := some "/Connected",
     valueType := some (.vStr "integer"), multiplier := none,
     unit := none, digits := none }]

def meterC2 : List (String × Value) := [("x", .vInt 5)]

/-- A rule with an integer multiplier on a field whose meter value turns
out to be a string. -/
def ruleC6int : MappingRule :=
  { name := some "reading", path := some "/Reading",
    valueType := some (.vStr "string"), multiplier := some (.vInt 2),
    unit := none, digits := none }

/-- The same rule with a float multiplier. -/
def ruleC6float : MappingRule :=
  { ruleC6int with multiplier := some (.vFloat (1/2)) }

def meterC6 : List (String × Value) := [("reading", .vStr "ab")]

/-- A rule whose `name` is absent from `meter0`. -/
def ruleSkip : MappingRule :=
  { name := some "absent_field", path := some "/A",
    valueType := some (.vStr "integer"), multiplier := none,
    unit := none, digits := none }

/-! ## Supporting lemmas -/

/-- A successful `process_message` call either leaves the state untouched
(JSON decode failure) or only increments `index`. -/
theorem process_message_ok_state (mapping : List MappingRule)
    (s : MapperState) (p : Option (List (String × Value))) (pubOk : Bool)
    (s1 : MapperState) (outs : List Output)
    (h : process_message mapping s p pubOk = .ok (s1, outs)) :
    s1 = s ∨ s1 = { s with index := s.index + 1 } := by
  cases p with
  | none =>
    simp only [process_message, Except.ok.injEq, Prod.mk.injEq] at h
    exact Or.inl h.1.symm
  | some meter =>
    simp only [process_message] at h
    cases hm : mapFields mapping meter with
    | error e => rw [hm] at h; exact Except.noConfusion h
    | ok mapped =>
      rw [hm] at h
      simp only [Except.ok.injEq, Prod.mk.injEq] at h
      exact Or.inr h.1.symm

/-- The connection flags are unchanged by a successful `process_message`. -/
theorem process_message_ok_flags (mapping : List MappingRule)
    (s : MapperState) (p : Option (List (String × Value))) (pubOk : Bool)
    (s1 : MapperState) (outs : List Output)
    (h : process_message mapping s p pubOk = .ok (s1, outs)) :
    s1.victron_publishing_active = s.victron_publishing_active ∧
    s1.victron_mqtt_connected = s.victron_mqtt_connected := by
  rcases process_message_ok_state mapping s p pubOk s1 outs h with h1 | h1 <;>
    subst h1 <;> exact ⟨rfl, rfl⟩

/-- Evaluation of the fixture table on the fixture meter record. -/
theorem mapFields_mapping0 : mapFields mapping0 meter0 = .ok mapped0 := by
  simp only [mapping0, meter0, mapped0, exampleRule, mapFields, dictGet, pyMul]
  norm_num

/-- Every record produced by `mapFields` takes its path from some rule of
the table. -/
theorem mapFields_path_from_rule (mapping : List MappingRule) :
    ∀ (meter : List (String × Value)) (out : List DestRecord),
      mapFields mapping meter = .ok out →
      ∀ r ∈ out, ∃ f, f ∈ mapping ∧ f.path = some r.path := by
  induction mapping with
  | nil =>
    intro meter out h r hr
    simp only [mapFields, Except.ok.injEq] at h
    subst h
    simp at hr
  | cons field rest ih =>
    intro meter out h r hr
    unfold mapFields at h
    split at h
    case _ p n hp hn =>
      split at h
      case _ =>
        obtain ⟨f, hf, hfp⟩ := ih meter out h r hr
        exact ⟨f, List.mem_cons_of_mem _ hf, hfp⟩
      case _ v hv =>
        split at h
        case _ => exact Except.noConfusion h
        case _ value hval =>
          split at h
          case _ => exact Except.noConfusion h
          case _ vt hvt =>
            split at h
            case _ => exact Except.noConfusion h
            case _ restOut hrest =>
              simp only [Except.ok.injEq] at h
              subst h
              rcases List.mem_cons.mp hr with hr1 | hr1
              · subst hr1
                exact ⟨field, List.mem_cons_self _ _, hp⟩
              · obtain ⟨f, hf, hfp⟩ := ih meter restOut hrest r hr1
                exact ⟨f, List.mem_cons_of_mem _ hf, hfp⟩
    case _ =>
      obtain ⟨f, hf, hfp⟩ := ih meter out h r hr
      exact ⟨f, List.mem_cons_of_mem _ hf, hfp⟩

/-! ## Claim theorems -/

/-- C1: for every successfully processed inbound message, the appended
`/Connected` destination record has value 1 iff `source_connected` AND
`victron_publishing_active` both hold at assembly time, and value 0
otherwise (the combined semantics, not raw source-connectivity). -/
theorem connected_record_combined_semantics
    (mapping : List MappingRule) (meter : List (String × Value))
    (mapped : List DestRecord) (s : MapperState) (pubOk : Bool)
    (h : mapFields mapping meter = .ok mapped) :
    process_message mapping s (some meter) pubOk
      = .ok ({ s with index := s.index + 1 },
             Output.victronMsg
               (mapped ++ [connectedRecord s, updateIndexRecord s.index]) false
               :: (if s.index % 256 == 0 || s.index == 0
                   then [Output.sourceOnline (some s.index)] else []))
    ∧ ((connectedRecord s).value = .vInt 1 ↔
         (s.source_connected = true ∧ s.victron_publishing_active = true))
    ∧ ((connectedRecord s).value = .vInt 0 ↔
         ¬(s.source_connected = true ∧ s.victron_publishing_active = true)) := by
  refine ⟨?_, ?_, ?_⟩
  · simp only [process_message, h]
  · simp only [connectedRecord]
    cases hs : s.source_connected <;>
      cases hp : s.victron_publishing_active <;> simp
  · simp only [connectedRecord]
    cases hs : s.source_connected <;>
      cases hp : s.victron_publishing_active <;> simp

/-- C1 witness: the theorem applied to the fixture table, meter record and
the fully-connected state `s0`. -/
theorem connected_record_combined_semantics_witness :
    mapFields mapping0 meter0 = .ok mapped0 ∧
    (process_message mapping0 s0 (some meter0) true
      = .ok ({ s0 with index := s0.index + 1 },
             Output.victronMsg
               (mapped0 ++ [connectedRecord s0, updateIndexRecord s0.index]) false
               :: (if s0.index % 256 == 0 || s0.index == 0
                   then [Output.sourceOnline (some s0.index)] else []))
     ∧ ((connectedRecord s0).value = .vInt 1 ↔
          (s0.source_connected = true ∧ s0.victron_publishing_active = true))
     ∧ ((connectedRecord s0).value = .vInt 0 ↔
          ¬(s0.source_connected = true ∧ s0.victron_publishing_active = true))) :=
  ⟨mapFields_mapping0,
   connected_record_combined_semantics mapping0 meter0 mapped0 s0 true
     mapFields_mapping0⟩

/-- C2 (amended): for every successfully published message, the output
`dbus_data` is the mapped field records followed by the `/Connected` and
`/UpdateIndex` records; provided no mapping rule itself targets the paths
"/Connected" or "/UpdateIndex", these appended records are the unique
records with those paths. -/
theorem unique_status_records
    (mapping : List MappingRule) (meter : List (String × Value))
    (mapped : List DestRecord) (s : MapperState) (pubOk : Bool)
    (h : mapFields mapping meter = .ok mapped)
    (hno : ∀ f ∈ mapping, f.path ≠ some "/Connected" ∧ f.path ≠ some "/UpdateIndex") :
    process_message mapping s (some meter) pubOk
      = .ok ({ s with index := s.index + 1 },
             Output.victronMsg
               (mapped ++ [connectedRecord s, updateIndexRecord s.index]) false
               :: (if s.index % 256 == 0 || s.index == 0
                   then [Output.sourceOnline (some s.index)] else []))
    ∧ (mapped ++ [connectedRecord s, updateIndexRecord s.index]).countP
        (fun r => decide (r.path = "/Connected")) = 1
    ∧ (mapped ++ [connectedRecord s, updateIndexRecord s.index]).countP
        (fun r => decide (r.path = "/UpdateIndex")) = 1 := by
  have hmapped : ∀ (q : String), q = "/Connected" ∨ q = "/UpdateIndex" →
      (mapped).countP (fun r => decide (r.path = q)) = 0 := by
    intro q hq
    refine List.countP_eq_zero.mpr ?_
    intro r hr
    obtain ⟨f, hf, hfp⟩ := mapFields_path_from_rule mapping meter mapped h r hr
    have hne := hno f hf
    simp only [decide_eq_true_eq]
    intro hrq
    rcases hq with hq | hq <;> rw [hrq] at hfp <;> rw [hq] at hfp
    · exact hne.1 hfp
    · exact hne.2 hfp
  refine ⟨?_, ?_, ?_⟩
  · simp only [process_message, h]
  · rw [List.countP_append, hmapped "/Connected" (Or.inl rfl)]
    simp [List.countP_cons, connectedRecord, updateIndexRecord]
  · rw [List.countP_append, hmapped "/UpdateIndex" (Or.inr rfl)]
    simp [List.countP_cons, connectedRecord, updateIndexRecord]

/-- C2 witness: the appended status records are unique for the fixture
table (whose only rule targets /Ac/Power). -/
theorem unique_status_records_witness :
    (mapped0 ++ [connectedRecord s0, updateIndexRecord s0.index]).countP
        (fun r => decide (r.path = "/Connected")) = 1
    ∧ (mapped0 ++ [connectedRecord s0, updateIndexRecord s0.index]).countP
        (fun r => decide (r.path = "/UpdateIndex")) = 1 :=
  (unique_status_records mapping0 meter0 mapped0 s0 true mapFields_mapping0
    (by decide)).2

/-- C2 counterexample: with a mapping table whose rule targets the path
"/Connected" itself, the published `dbus_data` of a successfully processed
message contains TWO records with path "/Connected", refuting "exactly one
record with path /Connected" as universally stated. -/
theorem duplicate_connected_path_possible :
    (publishedData (process_message mappingC2 s0 (some meterC2) true)).countP
        (fun r => decide (r.path = "/Connected")) = 2 := by decide

/-- C3: the emitted `/UpdateIndex` value equals `index % 256` at call time;
each successful publish increments `index` by exactly one (so `index`
never decreases and never wraps), and after 256 successive successful
publishes from index 0 the emitted value cycles back to 0. -/
theorem update_index_counter_semantics
    (mapping : List MappingRule) (meter : List (String × Value))
    (mapped : List DestRecord) (pubOk : Bool) (s : MapperState)
    (h : mapFields mapping meter = .ok mapped) :
    process_message mapping s (some meter) pubOk
      = .ok ({ s with index := s.index + 1 },
             Output.victronMsg
               (mapped ++ [connectedRecord s, updateIndexRecord s.index]) false
               :: (if s.index % 256 == 0 || s.index == 0
                   then [Output.sourceOnline (some s.index)] else []))
    ∧ (updateIndexRecord s.index).value = .vInt (s.index % 256)
    ∧ (∀ n, ((stepOnceOk mapping meter pubOk)^[n] s).index = s.index + n)
    ∧ s.index ≤ (stepOnceOk mapping meter pubOk s).index
    ∧ (s.index = 0 →
        (updateIndexRecord (((stepOnceOk mapping meter pubOk)^[256] s).index)).value
          = .vInt 0) := by
  have hone : ∀ st : MapperState,
      (stepOnceOk mapping meter pubOk st).index = st.index + 1 := by
    intro st
    simp [stepOnceOk, process_message, h]
  have hiter : ∀ (n : Nat) (st : MapperState),
      ((stepOnceOk mapping meter pubOk)^[n] st).index = st.index + n := by
    intro n
    induction n with
    | zero => intro st; simp
    | succ k ih =>
      intro st
      rw [Function.iterate_succ_apply, ih (stepOnceOk mapping meter pubOk st),
        hone st]
      omega
  refine ⟨by simp only [process_message, h], rfl, fun n => hiter n s,
    by rw [hone]; omega, ?_⟩
  intro h0
  have h256 : ((stepOnceOk mapping meter pubOk)^[256] s).index = 256 := by
    rw [hiter 256 s, h0]
  rw [h256]
  rfl

/-- C3 witness: the theorem applied to the fixture table from state `s0`
(index 0): the emitted value is `0 % 256` and after 256 successful
publishes the emitted `/UpdateIndex` value is 0 again. -/
theorem update_index_counter_semantics_witness :
    (updateIndexRecord s0.index).value = .vInt (s0.index % 256)
    ∧ (updateIndexRecord (((stepOnceOk mapping0 meter0 true)^[256] s0).index)).value
        = .vInt 0 :=
  ⟨(update_index_counter_semantics mapping0 meter0 mapped0 true s0
      mapFields_mapping0).2.1,
   (update_index_counter_semantics mapping0 meter0 mapped0 true s0
      mapFields_mapping0).2.2.2.2 rfl⟩

/-- C4 (amended): `index` does not advance for a message rejected for a
malformed payload (decode failure: state unchanged, nothing published) or
for lock contention; but the publish result code is only logged, so for a
publish failure the message is still counted: the resulting state is
independent of the publish outcome and `index` advances. -/
theorem rejected_message_index_behavior
    (mapping : List MappingRule) (s : MapperState) (pubOk : Bool)
    (now : ℚ) (payload : Option (List (String × Value))) :
    process_message mapping s none pubOk = .ok (s, [])
    ∧ (on_message mapping s true now false payload pubOk).1.index = s.index
    ∧ (∀ p, process_message mapping s p false = process_message mapping s p true) := by
  refine ⟨rfl, ?_, fun p => rfl⟩
  cases hA : s.victron_publishing_active <;>
    cases hC : s.victron_mqtt_connected <;>
      simp [on_message, resume_victron_publishing, hA, hC]

/-- C4 counterexample: a message whose publish to the Victron broker fails
(result code not MQTT_ERR_SUCCESS, the `pubOk = false` argument) still
advances `index` from 0 to 1, because `self.index += 1` runs regardless of
the publish result — refuting "for a publish failure ... messageIndex does
not advance". -/
theorem publish_failure_still_advances_index :
    s0.index = 0
    ∧ (on_message mapping0 s0 true 100 true (some meter0) false).1.index = 1 :=
  ⟨rfl, by decide⟩

/-- Dropping a rule that the mapping loop skips (no `path` key, no `name`
key, or `name` absent from the meter record) from anywhere in the table
leaves the transform's outcome unchanged. -/
theorem mapFields_cons_skip (rule : MappingRule) (post : List MappingRule)
    (meter : List (String × Value))
    (h : rule.path = none ∨ rule.name = none ∨
         ∃ n, rule.name = some n ∧ dictGet meter n = none) :
    mapFields (rule :: post) meter = mapFields post meter := by
  obtain ⟨rname, rpath, rvt, rmul, runit, rdig⟩ := rule
  rcases h with hp | hn | ⟨n, hn, hd⟩
  · replace hp : rpath = none := hp
    subst hp
    simp only [mapFields]
  · replace hn : rname = none := hn
    subst hn
    cases rpath <;> simp only [mapFields]
  · replace hn : rname = some n := hn
    subst hn
    cases rpath with
    | none => simp only [mapFields]
    | some p => simp only [mapFields, hd]

/-- C5: a rule whose `name` key is absent from the meter record, or which
lacks a `path` (or even a `name`) key, produces no output record, causes
no crash and no partial record, and all other rules are processed exactly
as if the skipped rule were not in the table. -/
theorem skipped_rule_produces_nothing
    (pre post : List MappingRule) (rule : MappingRule)
    (meter : List (String × Value))
    (h : rule.path = none ∨ rule.name = none ∨
         ∃ n, rule.name = some n ∧ dictGet meter n = none) :
    mapFields (pre ++ rule :: post) meter = mapFields (pre ++ post) meter := by
  induction pre with
  | nil => simpa using mapFields_cons_skip rule post meter h
  | cons f pre ih =>
    simp only [List.cons_append, mapFields, List.append_eq, ih]

/-- C5 witness: inserting a rule for a field absent from the fixture meter
record leaves the transform's output unchanged. -/
theorem skipped_rule_produces_nothing_witness :
    mapFields (mapping0 ++ ruleSkip :: []) meter0 = mapFields (mapping0 ++ []) meter0 :=
  skipped_rule_produces_nothing mapping0 [] ruleSkip meter0
    (Or.inr (Or.inr ⟨"absent_field", rfl, by decide⟩))

/-- C6: evaluating the transform at the failing input. A rule whose
multiplier is the integer 2 applied to the string meter value "ab"
silently succeeds with the repeated string "abab" (Python sequence
repetition) instead of failing loudly; only a float multiplier (second
conjunct) raises the TypeError the claim requires. -/
theorem int_multiplier_on_string_is_silent :
    mapFields [ruleC6int] meterC6
      = .ok [{ path := "/Reading", value := .vStr "abab",
               valueType := .vStr "string", writeable := false,
               unit := none, digits := none }]
    ∧ mapFields [ruleC6float] meterC6
      = .error "TypeError: cannot multiply sequence by non-int of type float" :=
  ⟨by decide, by decide⟩

/-- C7 (amended): a second `shutdown` call raises no exception and leaves
the state where the first call left it, but — the code having no
re-entrancy guard — it re-publishes exactly the same offline/disconnected
status messages as the first call. -/
theorem shutdown_second_call_repeats (s : MapperState) :
    (shutdown (shutdown s).1).2 = (shutdown s).2
    ∧ Output.sourceOffline ∈ (shutdown s).2
    ∧ (shutdown (shutdown s).1).1 = (shutdown s).1 := by
  refine ⟨?_, ?_, ?_⟩ <;> simp [shutdown, send_disconnected_status]

/-- C7 counterexample: from the connected state `s0`, two successive
shutdown calls publish the source offline status twice and the retained
Victron disconnected status twice — refuting "publishes the
offline/disconnected status messages only once". -/
theorem shutdown_twice_double_publishes :
    ((shutdown s0).2 ++ (shutdown (shutdown s0).1).2).countP
        (fun o => decide (o = Output.sourceOffline)) = 2
    ∧ ((shutdown s0).2 ++ (shutdown (shutdown s0).1).2).countP
        (fun o => decide (o = Output.victronMsg
            [{ path := "/Connected", value := .vInt 0,
               valueType := .vStr "integer", writeable := false,
               unit := none, digits := none },
             updateIndexRecord s0.index] true)) = 2 :=
  ⟨by decide, by decide⟩

/-- C8: from a state that has seen a message (timestamp `t`), once the
elapsed time exceeds the configured timeout while publishing is active
(and hence, by the invariant of C10, the Victron session is connected),
exactly one suspend event occurs: publishing becomes inactive and one
retained `/Connected = 0` status with `/UpdateIndex = index % 256` is
emitted; subsequent ticks before the next real message change nothing and
re-emit nothing; and a state that has never seen a message is untouched by
any tick. -/
theorem timeout_single_suspend
    (timeout : ℚ) (s : MapperState) (now t : ℚ)
    (hsd : s.shutdown_in_progress = false)
    (hl : s.last_message_time = some t)
    (he : now - t > timeout)
    (ha : s.victron_publishing_active = true)
    (hc : s.victron_mqtt_connected = true) :
    monitor_tick timeout s now
      = ({ s with victron_publishing_active := false },
         [Output.victronMsg
            [{ path := "/Connected", value := .vInt 0,
               valueType := .vStr "integer", writeable := false,
               unit := none, digits := none },
             updateIndexRecord s.index] true])
    ∧ (updateIndexRecord s.index).value = .vInt (s.index % 256)
    ∧ (∀ now2 : ℚ,
        monitor_tick timeout { s with victron_publishing_active := false } now2
          = ({ s with victron_publishing_active := false }, []))
    ∧ (∀ (s2 : MapperState) (now2 : ℚ), s2.last_message_time = none →
        monitor_tick timeout s2 now2 = (s2, [])) := by
  refine ⟨?_, rfl, ?_, ?_⟩
  · simp [monitor_tick, hsd, hl, he, ha, hc, suspend_victron_publishing,
      send_disconnected_status]
  · intro now2
    simp only [monitor_tick, hsd, hl]
    split_ifs <;> simp [suspend_victron_publishing]
  · intro s2 now2 h2
    cases hsd2 : s2.shutdown_in_progress <;> simp [monitor_tick, h2, hsd2]

/-- C8 witness: with the default 30 second timeout, state `s0` (last
message at time 0) and a tick at time 40 suspends and emits exactly the
retained disconnected status. -/
theorem timeout_single_suspend_witness :
    ((40 : ℚ) - 0 > 30)
    ∧ monitor_tick 30 s0 40
        = ({ s0 with victron_publishing_active := false },
           [Output.victronMsg
              [{ path := "/Connected", value := .vInt 0,
                 valueType := .vStr "integer", writeable := false,
                 unit := none, digits := none },
               updateIndexRecord s0.index] true]) :=
  ⟨by norm_num,
   (timeout_single_suspend 30 s0 40 0 rfl rfl (by norm_num) rfl rfl).1⟩

/-- C9: for a telemetry-topic message arriving while publishing is
suspended: if the Victron MQTT session is connected, publishing flips back
to active and the message is processed normally (the full transform runs
on the resumed state); if it is not connected, the message is dropped with
no transform attempt and publishing remains suspended. -/
theorem resumption_semantics
    (mapping : List MappingRule) (s : MapperState) (now : ℚ)
    (lockAvailable : Bool) (payload : Option (List (String × Value)))
    (pubOk : Bool)
    (hsusp : s.victron_publishing_active = false) :
    (s.victron_mqtt_connected = true →
      on_message mapping s true now true payload pubOk
        = (match process_message mapping
             { s with last_message_time := some now,
                      victron_publishing_active := true } payload pubOk with
           | .error _ =>
             ({ s with last_message_time := some now,
                       victron_publishing_active := true }, [])
           | .ok r => r)
      ∧ (on_message mapping s true now true payload pubOk).1.victron_publishing_active
          = true)
    ∧ (s.victron_mqtt_connected = false →
      on_message mapping s true now lockAvailable payload pubOk
        = ({ s with last_message_time := some now }, [])
      ∧ (on_message mapping s true now lockAvailable payload pubOk).1.victron_publishing_active
          = false) := by
  constructor
  · intro hc
    cases hres : process_message mapping
        { s with last_message_time := some now,
                 victron_publishing_active := true } payload pubOk with
    | error e =>
      rw [hc] at hres
      constructor <;>
        simp [on_message, resume_victron_publishing, hsusp, hc, hres]
    | ok r =>
      have hflags := process_message_ok_flags mapping
        { s with last_message_time := some now,
                 victron_publishing_active := true } payload pubOk r.1 r.2
        (by rw [hres])
      rw [hc] at hres
      constructor
      · simp [on_message, resume_victron_publishing, hsusp, hc, hres]
      · simp only [on_message, resume_victron_publishing, hsusp, hc]
        simp [hres]
        exact hflags.1
  · intro hc
    constructor <;> simp [on_message, hsusp, hc]

/-- C9 witness: from `s0` suspended (publishing inactive, Victron
connected), the fixture message resumes publishing. -/
theorem resumption_semantics_witness :
    (on_message mapping0 { s0 with victron_publishing_active := false }
        true 100 true (some meter0) true).1.victron_publishing_active = true :=
  ((resumption_semantics mapping0 { s0 with victron_publishing_active := false }
      100 true (some meter0) true rfl).1 rfl).2

/-- `on_message` preserves the publishing-implies-connected invariant. -/
theorem inv_on_message (mapping : List MappingRule) (s : MapperState)
    (tm : Bool) (now : ℚ) (la : Bool)
    (p : Option (List (String × Value))) (ok : Bool)
    (h : publishImpliesConnected s) :
    publishImpliesConnected (on_message mapping s tm now la p ok).1 := by
  cases tm with
  | false => simpa [on_message] using h
  | true =>
    have hbody : ∀ (st : MapperState), st.victron_mqtt_connected = true →
        st.victron_publishing_active = true →
        publishImpliesConnected
          (match process_message mapping st p ok with
           | .error _ => (st, [])
           | .ok r => r).1 := by
      intro st hstC hstA
      cases hres : process_message mapping st p ok with
      | error e =>
        intro _
        simpa using hstC
      | ok r =>
        have hflags := process_message_ok_flags mapping st p ok r.1 r.2
          (by rw [hres])
        intro _
        rw [hflags.2]
        exact hstC
    cases hA : s.victron_publishing_active with
    | false =>
      cases hC : s.victron_mqtt_connected with
      | false => simp [on_message, hA, hC, publishImpliesConnected]
      | true =>
        cases la with
        | false =>
          simp [on_message, resume_victron_publishing, hA, hC,
            publishImpliesConnected]
        | true =>
          have := hbody
            { s with last_message_time := some now,
                     victron_publishing_active := true } hC rfl
          simpa [on_message, resume_victron_publishing, hA, hC] using this
    | true =>
      have hC : s.victron_mqtt_connected = true := h hA
      cases la with
      | false =>
        simp [on_message, resume_victron_publishing, hA, hC,
          publishImpliesConnected]
      | true =>
        have := hbody { s with last_message_time := some now } hC hA
        simpa [on_message, resume_victron_publishing, hA, hC] using this

/-- `monitor_tick` preserves the publishing-implies-connected invariant. -/
theorem inv_monitor_tick (timeout : ℚ) (s : MapperState) (now : ℚ)
    (h : publishImpliesConnected s) :
    publishImpliesConnected (monitor_tick timeout s now).1 := by
  unfold monitor_tick suspend_victron_publishing
  split
  · exact h
  · split
    · exact h
    · split
      · split
        · intro ha
          exact absurd ha (by simp)
        · exact h
      · exact h

/-- C10: the implicit invariant "publishing active implies Victron MQTT
connected" is preserved by every operation of the mapper; moreover a
successful destination connect does not by itself activate publishing,
resumption refuses to activate publishing while the destination is
disconnected, and a destination disconnect clears both flags together. -/
theorem publishing_invariant_preserved
    (mapping : List MappingRule) (timeout : ℚ) (e : Event)
    (s : MapperState) (rc : Nat)
    (h : publishImpliesConnected s) :
    publishImpliesConnected (step mapping timeout e s).1
    ∧ (on_connect_victron s 0).victron_publishing_active
        = s.victron_publishing_active
    ∧ (s.victron_mqtt_connected = false → resume_victron_publishing s = s)
    ∧ (on_disconnect_victron s rc).victron_publishing_active = false
    ∧ (on_disconnect_victron s rc).victron_mqtt_connected = false := by
  refine ⟨?_, by simp [on_connect_victron], ?_, rfl, rfl⟩
  · cases e with
    | connectVictron rc2 =>
      simp only [step, on_connect_victron]
      split_ifs <;> simpa [publishImpliesConnected] using h
    | disconnectVictron rc2 => simp [step, on_disconnect_victron, publishImpliesConnected]
    | connectSource rc2 now =>
      simp only [step, on_connect_source]
      split_ifs <;> simpa [publishImpliesConnected] using h
    | disconnectSource rc2 => simpa [step, on_disconnect_source, publishImpliesConnected] using h
    | message tm now la p ok => exact inv_on_message mapping s tm now la p ok h
    | tick now => exact inv_monitor_tick timeout s now h
    | shutdownEvt => simpa [step, shutdown, publishImpliesConnected] using h
  · intro hc
    simp [resume_victron_publishing, hc]

/-- C10 witness: the theorem applied to `s0` (which satisfies the
invariant) and a destination-disconnect event. -/
theorem publishing_invariant_preserved_witness :
    publishImpliesConnected s0
    ∧ (publishImpliesConnected
         (step mapping0 30 (Event.disconnectVictron 1) s0).1
       ∧ (on_connect_victron s0 0).victron_publishing_active
           = s0.victron_publishing_active
       ∧ (s0.victron_mqtt_connected = false →
            resume_victron_publishing s0 = s0)
       ∧ (on_disconnect_victron s0 1).victron_publishing_active = false
       ∧ (on_disconnect_victron s0 1).victron_mqtt_connected = false) :=
  ⟨by decide,
   publishing_invariant_preserved mapping0 30 (Event.disconnectVictron 1) s0 1
     (by decide)⟩

end DbusMapper
